import Mathlib

/-!
Verification of the SkillSphere conversation/session-state core
(`src/multi_tool_agent/agent.py`) against its design specification.

The Python source is shallowly embedded: every tool is a pure Lean
function; the module-level in-memory store attached to
`manage_conversation_state` becomes an explicit `Store` value threaded
through calls; `random.choice` becomes an explicit choice function
`rand : List String → String` supplied by the caller (the spec treats the
pseudo-random generator as an external collaborator); `datetime.now()`
becomes an explicit `today` argument.  Python strings are modelled by
`String`, with the handful of Python string primitives re-implemented by
structural recursion over the character list so that the kernel can
evaluate them (`split`, `strip`, `lower`, `join`, substring membership,
`startswith`).  Python floats are modelled by `ℚ`; `round(x, 1)` is
modelled as round-to-nearest on `ℚ` (the source only ever rounds values
whose behaviour does not depend on the float tie-breaking mode at the
points any theorem below evaluates).
-/

namespace SkillSphere

/-! ### Python string primitives, kernel-computable -/

/-- Split a character list at every occurrence of `sep`
(Python `str.split(sep)`: `"".split(",") == [""]`). -/
def splitCharAux (sep : Char) : List Char → List Char → List (List Char)
  | [], cur => [cur.reverse]
  | c :: cs, cur =>
    if c = sep then cur.reverse :: splitCharAux sep cs []
    else splitCharAux sep cs (c :: cur)

def splitChar (sep : Char) (l : List Char) : List (List Char) :=
  splitCharAux sep l []

/-- Split at every character satisfying `p` (empty runs kept; callers filter). -/
def splitPredAux (p : Char → Bool) : List Char → List Char → List (List Char)
  | [], cur => [cur.reverse]
  | c :: cs, cur =>
    if p c then cur.reverse :: splitPredAux p cs []
    else splitPredAux p cs (c :: cur)

/-- Python `s.split(sep)` for a one-character separator. -/
def pySplit (s : String) (sep : Char) : List String :=
  (splitChar sep s.data).map (fun l => ⟨l⟩)

/-- Python `s.split()` (split on whitespace runs, dropping empty fields). -/
def pySplitWs (s : String) : List String :=
  ((splitPredAux Char.isWhitespace s.data []).filter (fun l => l ≠ [])).map (fun l => ⟨l⟩)

/-- Python `s.lower()`. -/
def lowerStr (s : String) : String := ⟨s.data.map Char.toLower⟩

/-- Python `s.strip()`. -/
def stripStr (s : String) : String :=
  ⟨((s.data.dropWhile Char.isWhitespace).reverse.dropWhile Char.isWhitespace).reverse⟩

def prefixCL (p l : List Char) : Bool := List.isPrefixOf p l

/-- `n` occurs as a contiguous sublist of the second argument. -/
def infixCL (n : List Char) : List Char → Bool
  | [] => prefixCL n []
  | c :: tl => prefixCL n (c :: tl) || infixCL n tl

/-- Python `needle in hay` on strings (contiguous substring test). -/
def pyIn (needle hay : String) : Bool := infixCL needle.data hay.data

/-- Python `s.startswith(p)`. -/
def pyStartswith (s p : String) : Bool := prefixCL p.data s.data

/-- Python `sep.join(parts)` with `sep = " "`. -/
def pyJoinSpaceAux : List (List Char) → List Char
  | [] => []
  | [x] => x
  | x :: xs => x ++ (' ' :: pyJoinSpaceAux xs)

def pyJoinSpace (l : List String) : String := ⟨pyJoinSpaceAux (l.map String.data)⟩

/-- Python `int(s)` for the non-negative digit strings appearing in the
source's static data (the source never parses anything else). -/
def digitsAux : List Char → Nat → Nat
  | [], acc => acc
  | c :: cs, acc => digitsAux cs (acc * 10 + (c.toNat - 48))

def pyIntStr (s : String) : Int := Int.ofNat (digitsAux s.data 0)

/-- Python `round(x, 1)` on `ℚ` (round to nearest tenth). -/
def roundPy1 (q : ℚ) : ℚ := ((round (q * 10) : ℤ) : ℚ) / 10

/-- Python `f"{x:.0f}"` on `ℚ` (round to nearest integer, rendered). -/
def fmtF0 (q : ℚ) : String := toString (round q)

/-- Python `f"{x:.1f}"` on non-negative `ℚ` values. -/
def fmtF1 (q : ℚ) : String :=
  toString ((round (q * 10) : ℤ) / 10) ++ "." ++ toString ((round (q * 10) : ℤ) % 10)

/-! ### Session store (`manage_conversation_state`, agent.py lines 18-125)

The three module-level dictionaries `memory`, `contexts` and
`interaction_history` become the three finite-map fields of `Store`,
modelled as functions to `Option`. -/

/-- One entry of `manage_conversation_state.interaction_history`. -/
structure Hist where
  interactions : Nat
  last_context : String
  preferences : List (String × String)
deriving DecidableEq

structure Store where
  mem : String → Option String
  contexts : String → Option String
  history : String → Option Hist

def emptyStore : Store :=
  { mem := fun _ => none, contexts := fun _ => none, history := fun _ => none }

def mapSet {α : Type} (f : String → Option α) (k : String) (v : α) : String → Option α :=
  fun x => if x = k then some v else f x

def mapDel {α : Type} (f : String → Option α) (k : String) : String → Option α :=
  fun x => if x = k then none else f x

/-- The heterogeneous Python result dict of `manage_conversation_state`,
flattened into one record of optional fields (a field is `none` exactly
when the corresponding key is absent from the returned dict). -/
structure StoreResult where
  status : String
  message : Option String := none
  next_suggestions : Option (List String) := none
  context : Option String := none
  profile : Option String := none
  suggestions : Option (List String) := none
  interaction_count : Option Nat := none
  current_context : Option String := none
  last_context : Option String := none
  motivational_message : Option String := none
  progress : Option String := none
  user_data : Option (String → Option String) := none

/-- The ten-entry standard pool of `get_dynamic_motivation`. -/
def motivation_messages : List String :=
  ["🌟 Great progress! You\x27re building momentum in your career journey!",
   "🚀 You\x27re on fire! Keep pushing towards your goals!",
   "💪 Consistency is key - you\x27re doing amazing!",
   "🎯 Every step forward is progress. You\x27ve got this!",
   "⭐ Your dedication to growth is inspiring!",
   "🏆 Success comes to those who persist. Keep going!",
   "🌈 Each interaction brings you closer to your dream career!",
   "💎 You\x27re investing in yourself - the best investment ever!",
   "🔥 Your commitment to learning will pay off big time!",
   "🌱 Growth mindset in action! You\x27re unstoppable!"]

/-- The four-entry advanced pool (used when `interaction_count > 5`). -/
def advanced_messages (interaction_count : Nat) : List String :=
  ["🎊 This is your " ++ toString interaction_count ++
     "th interaction! You\x27re truly committed to success!",
   "🏅 You\x27re becoming a SkillSphere power user! Your persistence will pay off!",
   "🌟 Advanced learner alert! Your dedication sets you apart from the crowd!",
   "🚀 You\x27re in the top tier of engaged learners. Success is inevitable!"]

/-- `get_dynamic_motivation` (agent.py 132-157); `rand` stands for
`random.choice`. -/
def get_dynamic_motivation (rand : List String → String) (interaction_count : Nat) : String :=
  if interaction_count > 5 then rand (advanced_messages interaction_count)
  else rand motivation_messages

/-- The context-keyed suggestion table inside the `set_context` branch. -/
def contextSuggestions (context_type : String) : List String :=
  if context_type = "career_exploration" then
    ["Analyze your skills", "Explore salary ranges", "Find job opportunities"]
  else if context_type = "learning_planning" then
    ["Calculate learning costs", "Find scholarships", "Track progress"]
  else if context_type = "progress_tracking" then
    ["Update skill progress", "Get motivation", "Adjust learning path"]
  else if context_type = "financial_planning" then
    ["Budget analysis", "ROI calculations", "Scholarship search"]
  else ["Continue conversation"]

/-- `manage_conversation_state` (agent.py 18-125).  Every call first
increments the caller's interaction counter (lines 47-50), then
dispatches on `action`; an unknown action yields the
`{status: "error", message: "Unknown action: ..."}` dict of lines
124-125.  The Python dispatcher never raises; correspondingly this
function is total. -/
def manage_conversation_state (rand : List String → String)
    (action user_id data context_type : String) (s : Store) : StoreResult × Store :=
  let h0 := (s.history user_id).getD { interactions := 0, last_context := "general", preferences := [] }
  let h1 : Hist := { h0 with interactions := h0.interactions + 1 }
  let s1 : Store := { s with history := mapSet s.history user_id h1 }
  if action = "save_profile" then
    ({ status := "success", message := some "Profile saved to conversation memory",
       next_suggestions := some ["Explore career paths", "Analyze skill gaps",
         "Get learning recommendations"],
       context := some "profile_complete" },
     { s1 with mem := mapSet s1.mem (user_id ++ "_profile") data,
               contexts := mapSet s1.contexts user_id "profile_complete" })
  else if action = "get_profile" then
    ({ status := "success",
       profile := some ((s1.mem (user_id ++ "_profile")).getD "\x7b\x7d"),
       context := some ((s1.contexts user_id).getD "new_user") }, s1)
  else if action = "set_context" then
    ({ status := "success", context := some context_type,
       suggestions := some (contextSuggestions context_type),
       interaction_count := some h1.interactions },
     { s1 with contexts := mapSet s1.contexts user_id context_type,
               history := mapSet s1.history user_id { h1 with last_context := context_type } })
  else if action = "get_context" then
    ({ status := "success",
       current_context := some ((s1.contexts user_id).getD "new_user"),
       interaction_count := some h1.interactions,
       last_context := some h1.last_context }, s1)
  else if action = "save_progress" then
    ({ status := "success", message := some "Progress saved to conversation memory",
       motivational_message := some (get_dynamic_motivation rand h1.interactions),
       context := some "learning_in_progress" },
     { s1 with mem := mapSet s1.mem (user_id ++ "_progress") data,
               contexts := mapSet s1.contexts user_id "learning_in_progress" })
  else if action = "get_progress" then
    ({ status := "success",
       progress := some ((s1.mem (user_id ++ "_progress")).getD "\x7b\x7d") }, s1)
  else if action = "reset" then
    ({ status := "success", message := some "User data reset" },
     { s1 with mem := fun k => if pyStartswith k user_id then none else s1.mem k,
               contexts := mapDel s1.contexts user_id,
               history := mapDel s1.history user_id })
  else if action = "list_all" then
    ({ status := "success",
       user_data := some (fun k => if pyStartswith k user_id then s1.mem k else none) }, s1)
  else
    ({ status := "error", message := some ("Unknown action: " ++ action) }, s1)

/-- A fixed stand-in for `random.choice`, used to state closed facts that
do not depend on the random source. -/
def rand0 : List String → String := fun _ => ""

/-! ### Skill-gap calculator (`calculate_skill_gap`, agent.py 520-535) -/

structure SkillGapResult where
  matching_skills : List String
  missing_skills : List String
  gap_percentage : ℚ
  readiness_level : String
deriving DecidableEq

/-- The comprehension
`[skill.strip().lower() for skill in current_skills.split(",") if skill.strip()]`. -/
def skillTokens (current_skills : String) : List String :=
  (pySplit current_skills ',').filterMap (fun sk =>
    if stripStr sk = "" then none else some (lowerStr (stripStr sk)))

/-- `(len(missing_skills) / len(required_skills)) * 100 if required_skills else 0`. -/
def gapPercentQ (missingCount requiredCount : Nat) : ℚ :=
  if requiredCount = 0 then 0 else ((missingCount : ℚ) / (requiredCount : ℚ)) * 100

/-- The readiness tiers of line 534 (computed from the unrounded gap). -/
def readinessOf (gap : ℚ) : String :=
  if gap < 30 then "High" else if gap < 60 then "Medium" else "Beginner"

/-- `calculate_skill_gap` (agent.py 520-535).  Note the two different
matching tests in the source: `matching_skills` keeps a current-skill
token when some required skill is a substring of it, while
`missing_skills` keeps a required skill when its lowercase form is not a
substring of the space-joined current-token string. -/
def calculate_skill_gap (current_skills : String) (required_skills : List String) :
    SkillGapResult :=
  let current_skills_list := skillTokens current_skills
  let required_skills_lower := required_skills.map lowerStr
  let matching_skills := current_skills_list.filter
    (fun skill => required_skills_lower.any (fun req => pyIn req skill))
  let joined := pyJoinSpace current_skills_list
  let missing_skills := required_skills.filter (fun skill => !(pyIn (lowerStr skill) joined))
  let gapQ := gapPercentQ missing_skills.length required_skills.length
  { matching_skills := matching_skills, missing_skills := missing_skills,
    gap_percentage := roundPy1 gapQ, readiness_level := readinessOf gapQ }

/-- Modelled from the spec: the symmetric matching rule of §4.2 — after
lower-casing both sides, a required skill "matches" when some
current-skill token is a substring of it or it is a substring of some
current-skill token.  This definition follows the spec's words and is
compared against `calculate_skill_gap` (which it does not agree with). -/
def symmetricMatchSpec (current_skills req : String) : Bool :=
  (skillTokens current_skills).any
    (fun t => pyIn t (lowerStr req) || pyIn (lowerStr req) t)

/-! ### Workflow stage resolver and auto-chain advisor (agent.py 160-206) -/

/-- The shape of a just-computed domain-result dict, restricted to the
keys `determine_workflow_stage` and `auto_chain_tools` inspect.  A field
is `none` exactly when the key is absent; `total_cost` carries its
numeric value because rule 4 reads it. -/
structure ToolResult where
  profile : Option Unit := none
  career_paths : Option Unit := none
  curriculum : Option Unit := none
  progress : Option Unit := none
  costs : Option Unit := none
  career_analysis : Option Unit := none
  total_cost : Option ℚ := none
deriving DecidableEq

/-- `determine_workflow_stage` (agent.py 195-206): a pure function of the
result shape only — it does not receive the prior stage, and its
no-match branch returns the fixed label `"getting_started"`. -/
def determine_workflow_stage (result : ToolResult) : String :=
  if result.profile.isSome then "profile_complete"
  else if result.career_paths.isSome then "careers_explored"
  else if result.curriculum.isSome then "learning_planned"
  else if result.progress.isSome then "learning_active"
  else "getting_started"

structure ChainAction where
  action : String
  priority : String
deriving DecidableEq

structure ChainResult where
  suggestions : List String
  auto_actions : List ChainAction
  workflow_stage : String
deriving DecidableEq

/-- `auto_chain_tools` (agent.py 160-192): the four independent rules,
appending to `suggestions` / `auto_actions` in source order. -/
def auto_chain_tools (initial_result : ToolResult) (user_context : String) : ChainResult :=
  let s₁ : List String :=
    if initial_result.career_paths.isSome ∧ user_context ≠ "learning_planned" then
      ["🎓 Ready for the next step? Let me create your personalized learning curriculum!"]
    else []
  let a₁ : List ChainAction :=
    if initial_result.career_paths.isSome ∧ user_context ≠ "learning_planned" then
      [{ action := "generate_curriculum", priority := "high" }]
    else []
  let s₂ : List String :=
    if initial_result.curriculum.isSome ∧ initial_result.costs = none then
      ["💰 Want to see the investment required? I can calculate detailed costs!"]
    else []
  let a₂ : List ChainAction :=
    if initial_result.curriculum.isSome ∧ initial_result.costs = none then
      [{ action := "calculate_costs", priority := "medium" }]
    else []
  let s₃ : List String :=
    if initial_result.profile.isSome ∧ initial_result.career_analysis = none then
      ["🔍 Based on your profile, let me analyze the best career matches!"]
    else []
  let a₃ : List ChainAction :=
    if initial_result.profile.isSome ∧ initial_result.career_analysis = none then
      [{ action := "recommend_careers", priority := "high" }]
    else []
  let s₄ : List String :=
    if initial_result.total_cost.isSome ∧ initial_result.total_cost.getD 0 > 1000 then
      ["🎓 Those costs looking high? Let me find scholarships to reduce your investment!"]
    else []
  let a₄ : List ChainAction :=
    if initial_result.total_cost.isSome ∧ initial_result.total_cost.getD 0 > 1000 then
      [{ action := "find_scholarships", priority := "medium" }]
    else []
  { suggestions := s₁ ++ s₂ ++ s₃ ++ s₄,
    auto_actions := a₁ ++ a₂ ++ a₃ ++ a₄,
    workflow_stage := determine_workflow_stage initial_result }

/-! ### Profile collection (`collect_user_profile`, agent.py 302-339)

A pure function: it never touches the session store
(`manage_conversation_state` is not called anywhere in its body), which
is why its embedding takes no `Store` argument.  `datetime.now()` is the
explicit `today` argument. -/

structure UserProfile where
  name : String
  current_role : String
  experience_years : Int
  interests : List String
  learning_style : String
  time_availability : String
  profile_created : String
  status : String
deriving DecidableEq

structure ProfileToolResult where
  status : String
  message : String
  profile : UserProfile
deriving DecidableEq

def collect_user_profile (name current_role : String) (experience_years : Int)
    (interests learning_style time_availability today : String) : ProfileToolResult :=
  let profile : UserProfile :=
    { name := name, current_role := current_role, experience_years := experience_years,
      interests := (pySplit interests ',').map stripStr,
      learning_style := learning_style, time_availability := time_availability,
      profile_created := today, status := "success" }
  { status := "success",
    message := "Profile created successfully for " ++ name ++ "!",
    profile := profile }

/-! ### Career matching inside `recommend_career_paths` (agent.py 375-517)

The static `career_database` (category, career name, required skills,
time to proficiency — the fields the matching loop of lines 466-492
reads) and the score computation.  `matchedCareers` is the content of
`matched_careers` after the loop: every career whose score passes the
strict `> 30` threshold, in the source's dict iteration order.  The
function later divides by `len(top_careers)` in the
`avg_time_to_proficiency` f-string (line 507), so an empty result makes
the Python call raise `ZeroDivisionError`. -/

structure CareerEntry where
  category : String
  name : String
  required_skills : List String
  time_to_proficiency : String
deriving DecidableEq

def careerEntries : List CareerEntry :=
  [{ category := "technology", name := "Software Developer",
     required_skills := ["Programming", "Problem Solving", "Logic", "Version Control"],
     time_to_proficiency := "6-12 months" },
   { category := "technology", name := "Data Scientist",
     required_skills := ["Statistics", "Python/R", "Machine Learning", "Data Visualization"],
     time_to_proficiency := "8-15 months" },
   { category := "technology", name := "DevOps Engineer",
     required_skills := ["Cloud Platforms", "Automation", "Scripting", "System Administration"],
     time_to_proficiency := "10-18 months" },
   { category := "marketing", name := "Digital Marketing Specialist",
     required_skills := ["SEO/SEM", "Analytics", "Content Creation", "Social Media"],
     time_to_proficiency := "4-8 months" },
   { category := "design", name := "UX/UI Designer",
     required_skills := ["Design Software", "User Research", "Prototyping", "Visual Design"],
     time_to_proficiency := "6-12 months" }]

/-- The per-career score of the loop at lines 470-486: per keyword,
+20 when the keyword occurs in the category or the lowered career name,
+15 when it occurs in some lowered required skill; then the experience
boost (+10 for beginner only when `time_to_proficiency` starts with
`"4-"` or `"6-"`, +15 intermediate, +20 advanced). -/
def careerMatchScore (interest_keywords : List String) (experience_level : String)
    (c : CareerEntry) : Nat :=
  let base := (interest_keywords.map (fun kw =>
      (if pyIn kw c.category || pyIn kw (lowerStr c.name) then 20 else 0) +
      (if c.required_skills.any (fun sk => pyIn kw (lowerStr sk)) then 15 else 0))).sum
  let boost :=
    if experience_level = "beginner" &&
        (pyStartswith c.time_to_proficiency "4-" || pyStartswith c.time_to_proficiency "6-") then 10
    else if experience_level = "intermediate" then 15
    else if experience_level = "advanced" then 20
    else 0
  base + boost

/-- `matched_careers` after lines 470-489 (name and score of every career
passing the strict `> 30` relevance threshold). -/
def matchedCareers (interests experience_level : String) : List (String × Nat) :=
  (careerEntries.map (fun c =>
      (c.name, careerMatchScore (pySplitWs (lowerStr interests)) experience_level c))).filter
    (fun p => p.2 > 30)

/-! ### Learning curriculum (`generate_learning_curriculum`, agent.py 542-785)

The static `curriculums` table; heterogeneous course/link dicts are
represented as string key-value lists. -/

structure Phase where
  phase : Nat
  title : String
  duration : String
  skills : List String
  resources : List (List (String × String)) := []
  adaptive_content : Bool := false
  recommended_duration : Option String := none
  status : Option String := none
deriving DecidableEq

structure Curriculum where
  duration : String
  difficulty_adjustment : Option String := none
  top_courses : List (List (String × String)) := []
  top_certifications : List (List (String × String)) := []
  job_search_links : List (List (String × String)) := []
  phases : List Phase := []
deriving DecidableEq

def softwareDeveloperCurriculum : Curriculum :=
  { duration := "6-9 months",
    top_courses :=
      [[("name", "Google IT Support Professional Certificate"),
        ("platform", "Google Career Certificates/Coursera"),
        ("url", "https://www.coursera.org/professional-certificates/google-it-support"),
        ("rating", "4.8/5"), ("price", "$49/month"), ("duration", "3-6 months"),
        ("google_priority", "🟢 FEATURED - Google DevFest Recommended")],
       [("name", "Google Cloud Digital Leader Certification"),
        ("platform", "Google Cloud"),
        ("url", "https://cloud.google.com/certification/cloud-digital-leader"),
        ("rating", "4.7/5"), ("price", "$99 exam fee"), ("duration", "1-2 months prep"),
        ("google_priority", "🟢 FEATURED - Google Cloud Official")],
       [("name", "CS50\x27s Introduction to Computer Science"),
        ("platform", "Harvard/edX"),
        ("url", "https://www.edx.org/course/introduction-computer-science-harvardx-cs50x"),
        ("rating", "4.8/5"), ("price", "Free (Certificate: $199)"),
        ("duration", "10-20 hours/week"), ("google_priority", "🔵 COMPLEMENTARY")]],
    top_certifications :=
      [[("name", "Google Cloud Professional Developer"), ("provider", "Google Cloud"),
        ("url", "https://cloud.google.com/certification/cloud-developer"),
        ("price", "$200 exam fee"), ("duration", "3-6 months prep"),
        ("recognition", "🏆 Industry-leading cloud development certification"),
        ("google_priority", "🟢 FEATURED - Google Cloud Official")],
       [("name", "Google IT Automation with Python"), ("provider", "Google/Coursera"),
        ("url", "https://www.coursera.org/professional-certificates/google-it-automation"),
        ("price", "$49/month"), ("duration", "3-6 months"),
        ("recognition", "Automation and Python skills for IT professionals"),
        ("google_priority", "🟢 FEATURED - Google Career Certificate")],
       [("name", "Associate Cloud Engineer"), ("provider", "Google Cloud"),
        ("url", "https://cloud.google.com/certification/cloud-engineer"),
        ("price", "$125 exam fee"), ("duration", "3-4 months prep"),
        ("recognition", "Entry-level Google Cloud certification"),
        ("google_priority", "🟢 FEATURED - Google Cloud Official")]],
    job_search_links :=
      [[("platform", "LinkedIn Jobs"),
        ("url", "https://www.linkedin.com/jobs/search/?keywords=software%20developer&location=United%20States"),
        ("description", "Professional network with 20M+ tech jobs")],
       [("platform", "Indeed Tech Jobs"),
        ("url", "https://www.indeed.com/jobs?q=software+developer&l="),
        ("description", "Largest job board with salary insights")],
       [("platform", "AngelList (Wellfound)"),
        ("url", "https://wellfound.com/role/r/software-engineer"),
        ("description", "Startup jobs with equity opportunities")]],
    phases :=
      [{ phase := 1, title := "Programming Fundamentals", duration := "6-8 weeks",
         skills := ["Variables & Data Types", "Control Structures", "Functions"],
         resources :=
           [[("type", "course"), ("name", "Python for Beginners"), ("platform", "Coursera"),
             ("url", "https://www.coursera.org/learn/python-programming")],
            [("type", "practice"), ("name", "HackerRank Python Track"),
             ("platform", "HackerRank"), ("url", "https://www.hackerrank.com/domains/python")],
            [("type", "project"), ("name", "Build a Calculator App"),
             ("difficulty", "Beginner")]] },
       { phase := 2, title := "Web Development Basics", duration := "8-10 weeks",
         skills := ["HTML/CSS", "JavaScript", "Responsive Design"],
         resources :=
           [[("type", "course"), ("name", "Responsive Web Design"),
             ("platform", "freeCodeCamp"),
             ("url", "https://www.freecodecamp.org/learn/responsive-web-design/")],
            [("type", "course"), ("name", "JavaScript Algorithms and Data Structures"),
             ("platform", "freeCodeCamp"),
             ("url", "https://www.freecodecamp.org/learn/javascript-algorithms-and-data-structures/")],
            [("type", "project"), ("name", "Personal Portfolio Website"),
             ("difficulty", "Intermediate")]] },
       { phase := 3, title := "Backend Development", duration := "10-12 weeks",
         skills := ["Node.js/Python", "Databases", "APIs"],
         resources :=
           [[("type", "course"), ("name", "Backend Development and APIs"),
             ("platform", "freeCodeCamp"),
             ("url", "https://www.freecodecamp.org/learn/back-end-development-and-apis/")],
            [("type", "project"), ("name", "RESTful API with Database"),
             ("difficulty", "Advanced")]] }] }

def dataScientistCurriculum : Curriculum :=
  { duration := "8-12 months",
    difficulty_adjustment := some "Higher math requirements",
    top_courses :=
      [[("name", "Google Advanced Data Analytics Certificate"),
        ("platform", "Google Career Certificates/Coursera"),
        ("url", "https://www.coursera.org/professional-certificates/google-advanced-data-analytics"),
        ("rating", "4.8/5"), ("price", "$49/month"), ("duration", "3-6 months"),
        ("google_priority", "🟢 FEATURED - Google AI/ML Focus")],
       [("name", "Machine Learning with TensorFlow on Google Cloud"),
        ("platform", "Google Cloud"),
        ("url", "https://www.coursera.org/specializations/machine-learning-tensorflow-gcp"),
        ("rating", "4.7/5"), ("price", "$49/month"), ("duration", "4 months"),
        ("google_priority", "🟢 FEATURED - Google Cloud AI")],
       [("name", "Google Business Intelligence Certificate"),
        ("platform", "Google Career Certificates/Coursera"),
        ("url", "https://www.coursera.org/professional-certificates/google-business-intelligence"),
        ("rating", "4.6/5"), ("price", "$49/month"), ("duration", "2-4 months"),
        ("google_priority", "🟢 FEATURED - Google Analytics Focus")]],
    phases :=
      [{ phase := 1, title := "Statistics & Python Fundamentals", duration := "8-10 weeks",
         skills := ["Statistics", "Python", "Data Analysis"], adaptive_content := true },
       { phase := 2, title := "Data Manipulation & Visualization", duration := "10-12 weeks",
         skills := ["Pandas", "NumPy", "Matplotlib", "Seaborn"], adaptive_content := true },
       { phase := 3, title := "Machine Learning & Advanced Analytics",
         duration := "12-16 weeks",
         skills := ["Scikit-learn", "Deep Learning", "Model Deployment"],
         adaptive_content := true }] }

/-- The `curriculums` dict lookup (line 737 falls back to the
`"Software Developer"` entry on a miss). -/
def curriculumsKB (k : String) : Option Curriculum :=
  if k = "Software Developer" then some softwareDeveloperCurriculum
  else if k = "Data Scientist" then some dataScientistCurriculum
  else none

/-- The per-phase adaptation of lines 743-750. -/
def adaptPhase (skill_list : List String) (p : Phase) : Phase :=
  let phase_skills := p.skills.map lowerStr
  let matching := skill_list.filter (fun sk => phase_skills.any (fun ps => pyIn ps sk))
  if (matching.length : ℚ) > (phase_skills.length : ℚ) * (1 / 2) then
    { p with
      recommended_duration := some
        (toString (pyIntStr ((pySplit p.duration '-').headD "") - 2) ++ "-" ++
         toString (pyIntStr ((pySplitWs ((pySplit p.duration '-').getD 1 "")).headD "") - 2) ++
         " weeks"),
      status := some "accelerated" }
  else { p with status := some "standard" }

structure CurriculumResult where
  status : String
  target_career : String
  curriculum : Curriculum
  personalized_timeline : String
  adaptation_notes : String
  skill_acceleration : Nat
  next_suggestions : List String
  auto_actions : List ChainAction
  dynamic_features : List (String × Bool)
  motivational_insight : String

/-- `generate_learning_curriculum` (agent.py 542-785).  Three session
store calls (`get_context`, `get_profile`, `set_context`); KB miss falls
back to the Software Developer curriculum (line 737); the returned
`status` is the literal `"success"` on every path. -/
def generate_learning_curriculum (rand : List String → String)
    (target_career current_skills time_commitment user_id : String) (s : Store) :
    CurriculumResult × Store :=
  let ci := manage_conversation_state rand "get_context" user_id "" "general" s
  let up := manage_conversation_state rand "get_profile" user_id "" "general" ci.snd
  let selected0 := (curriculumsKB target_career).getD softwareDeveloperCurriculum
  let selected :=
    if current_skills ≠ "" then
      let skill_list := (pySplit current_skills ',').map (fun sk => lowerStr (stripStr sk))
      { selected0 with phases := selected0.phases.map (adaptPhase skill_list) }
    else selected0
  let time_multiplier : ℚ :=
    if pyIn "1-2 hours" time_commitment then 3 / 2
    else if pyIn "4+ hours" time_commitment then 4 / 5
    else 1
  let b0 := pyIntStr ((pySplit selected.duration '-').headD "")
  let b1 := pyIntStr ((pySplitWs ((pySplit selected.duration '-').getD 1 "")).headD "")
  let adjusted_duration :=
    fmtF0 ((b0 : ℚ) * time_multiplier) ++ "-" ++ fmtF0 ((b1 : ℚ) * time_multiplier) ++ " months"
  let chain_result := auto_chain_tools { curriculum := some () }
    (ci.fst.current_context.getD "")
  let sc := manage_conversation_state rand "set_context" user_id "" "learning_planning" up.snd
  ({ status := "success", target_career := target_career, curriculum := selected,
     personalized_timeline := adjusted_duration,
     adaptation_notes := "Timeline adjusted for " ++ time_commitment ++ " commitment",
     skill_acceleration :=
       (selected.phases.filter (fun p => p.status = some "accelerated")).length,
     next_suggestions := chain_result.suggestions,
     auto_actions := chain_result.auto_actions,
     dynamic_features := [("adaptive_pacing", true), ("skill_based_acceleration", true),
       ("real_time_course_links", true), ("market_aligned_curriculum", true)],
     motivational_insight := get_dynamic_motivation rand (ci.fst.interaction_count.getD 1) },
   sc.snd)

/-! ### Scholarships (`find_scholarships`, agent.py 1259-1323) -/

structure Scholarship where
  name : String
  amount : String
  eligibility : String
  deadline : String
  application_link : String
deriving DecidableEq

def googleDeveloperScholarship : Scholarship :=
  { name := "Google Developer Scholarship", amount := "$1,000 - $5,000",
    eligibility := "Underrepresented groups in tech", deadline := "Rolling applications",
    application_link := "developers.google.com/scholarships" }

def courseraFinancialAid : Scholarship :=
  { name := "Coursera Financial Aid", amount := "Up to 100% course cost",
    eligibility := "Financial need demonstrated", deadline := "Available year-round",
    application_link := "coursera.org/financial-aid" }

def kaggleLearnScholarship : Scholarship :=
  { name := "Kaggle Learn Scholarship", amount := "Free courses + $500 credits",
    eligibility := "Active Kaggle community members", deadline := "Quarterly",
    application_link := "kaggle.com/learn" }

def generalCareerGrant : Scholarship :=
  { name := "General Career Development Grant", amount := "$500 - $2,000",
    eligibility := "Career changers", deadline := "Various",
    application_link := "Contact local workforce development" }

def scholarshipsKB (k : String) : Option (List Scholarship) :=
  if k = "Software Developer" then some [googleDeveloperScholarship, courseraFinancialAid]
  else if k = "Data Scientist" then some [kaggleLearnScholarship]
  else none

structure ScholarshipResult where
  status : String
  career : String
  available_scholarships : List Scholarship
  total_opportunities : Nat
  application_tips : List String
deriving DecidableEq

/-- `find_scholarships` (agent.py 1259-1323): KB miss falls back to a
one-element default list (lines 1302-1310); always `status = "success"`. -/
def find_scholarships (target_career user_background : String) : ScholarshipResult :=
  let career_scholarships := (scholarshipsKB target_career).getD [generalCareerGrant]
  { status := "success", career := target_career,
    available_scholarships := career_scholarships,
    total_opportunities := career_scholarships.length,
    application_tips := ["Apply early and often",
      "Tailor your application to each scholarship",
      "Highlight your commitment to the career change",
      "Get letters of recommendation"] }

/-! ### Learning costs (`calculate_learning_costs`, agent.py 1048-1237)

The source defines `calculate_learning_costs` twice; the later
definition (lines 1048-1237) shadows the earlier one (lines 792-933), so
it is the one registered as a tool and embedded here.  Nested cost dicts
mix numbers and strings and are represented with `CostVal`. -/

inductive CostVal where
  | num (q : ℚ)
  | str (s : String)
deriving DecidableEq

structure CostRange where
  min : ℚ
  max : ℚ
  avg : ℚ
deriving DecidableEq

structure LearningData where
  total_cost : Option CostRange := none
  duration_months : Option ℚ := none
  subscription_costs : List (String × List (String × CostVal)) := []
  certification_costs : List (String × List (String × CostVal)) := []
  tool_costs : List (String × List (String × CostVal)) := []
  additional_costs : List (String × List (String × CostVal)) := []
  payment_plans : List (String × List (String × CostVal)) := []
  per_semester : Option CostRange := none
  included_services : List String := []
deriving DecidableEq

def swDevOnlineCosts : LearningData :=
  { total_cost := some { min := 200, max := 800, avg := 400 },
    duration_months := some 6,
    subscription_costs :=
      [("coursera_plus", [("monthly", .num 49), ("yearly", .num 399),
         ("description", .str "Unlimited access to 7,000+ courses")]),
       ("udemy_personal", [("monthly", .num 30), ("yearly", .num 360),
         ("description", .str "Access to 210,000+ courses")]),
       ("pluralsight", [("monthly", .num 45), ("yearly", .num 449),
         ("description", .str "Tech-focused learning platform")])],
    certification_costs :=
      [("google_it", [("one_time", .num 49), ("duration_months", .num 3),
         ("description", .str "Google IT Support Certificate")]),
       ("aws_developer", [("one_time", .num 150), ("prep_months", .num 3),
         ("description", .str "AWS Developer Associate exam")]),
       ("comptia_aplus", [("one_time", .num 370), ("prep_months", .num 4),
         ("description", .str "CompTIA A+ certification")])],
    additional_costs :=
      [("books_resources", [("one_time", .num 100),
         ("description", .str "Programming books and resources")]),
       ("development_tools", [("monthly", .num 20),
         ("description", .str "IDE subscriptions and cloud services")]),
       ("practice_platforms", [("monthly", .num 35),
         ("description", .str "LeetCode Premium, HackerRank")])] }

def swDevBootcampCosts : LearningData :=
  { total_cost := some { min := 8000, max := 20000, avg := 12000 },
    duration_months := some 4,
    payment_plans :=
      [("upfront", [("discount", .num 1000),
         ("description", .str "Pay full amount upfront")]),
       ("monthly", [("months", .num 12), ("monthly_payment", .num 1000),
         ("total", .num 12000), ("description", .str "Extended payment plan")]),
       ("income_share", [("percentage", .num 17), ("duration_months", .num 24),
         ("description", .str "Pay percentage of salary after job")])],
    included_services :=
      ["Career coaching and job placement assistance", "1-on-1 mentoring sessions",
       "Portfolio project guidance", "Interview preparation"] }

def swDevUniversityCosts : LearningData :=
  { total_cost := some { min := 40000, max := 120000, avg := 80000 },
    duration_months := some 48,
    per_semester := some { min := 5000, max := 15000, avg := 10000 },
    additional_costs :=
      [("books_supplies", [("yearly", .num 1200),
         ("description", .str "Textbooks and supplies")]),
       ("technology_fee", [("yearly", .num 800),
         ("description", .str "Lab and technology access")]),
       ("living_expenses", [("monthly", .num 1500),
         ("description", .str "Housing, food, transportation")])] }

def dataSciOnlineCosts : LearningData :=
  { total_cost := some { min := 300, max := 1200, avg := 600 },
    duration_months := some 8,
    subscription_costs :=
      [("coursera_plus", [("monthly", .num 49), ("yearly", .num 399),
         ("description", .str "IBM & Google Data Science programs")]),
       ("datacamp", [("monthly", .num 35), ("yearly", .num 300),
         ("description", .str "Data science focused platform")]),
       ("udacity_nanodegree", [("monthly", .num 399), ("duration", .num 4),
         ("description", .str "Data Scientist Nanodegree")])],
    certification_costs :=
      [("google_data_analytics", [("monthly", .num 49), ("duration_months", .num 6),
         ("description", .str "Google Data Analytics Certificate")]),
       ("microsoft_azure_data", [("one_time", .num 165), ("prep_months", .num 3),
         ("description", .str "Azure Data Scientist Associate")]),
       ("tableau_certified", [("one_time", .num 250), ("prep_months", .num 2),
         ("description", .str "Tableau Desktop Specialist")])],
    tool_costs :=
      [("tableau_creator", [("monthly", .num 70),
         ("description", .str "Tableau data visualization tool")]),
       ("aws_sagemaker", [("pay_per_use", .num 50), ("monthly_avg", .num 50),
         ("description", .str "Machine learning platform")]),
       ("kaggle_notebooks", [("free", .num 0),
         ("description", .str "Free ML environment")])] }

def dataSciBootcampCosts : LearningData :=
  { total_cost := some { min := 10000, max := 25000, avg := 15000 },
    duration_months := some 6,
    payment_plans :=
      [("upfront", [("discount", .num 2000),
         ("description", .str "Early payment discount")]),
       ("monthly", [("months", .num 18), ("monthly_payment", .num 850),
         ("total", .num 15300), ("description", .str "Extended payment")]),
       ("deferred_tuition", [("percentage", .num 15), ("duration_months", .num 36),
         ("description", .str "Pay after employment")])] }

def uxDesignOnlineCosts : LearningData :=
  { total_cost := some { min := 150, max := 600, avg := 300 },
    duration_months := some 4,
    subscription_costs :=
      [("coursera_google_ux", [("monthly", .num 49), ("duration", .num 6),
         ("description", .str "Google UX Design Certificate")]),
       ("ixdf_membership", [("monthly", .num 16), ("yearly", .num 144),
         ("description", .str "Interaction Design Foundation")]),
       ("skillshare", [("monthly", .num 19), ("yearly", .num 168),
         ("description", .str "Creative courses platform")])],
    tool_costs :=
      [("adobe_creative_cloud", [("monthly", .num 53), ("yearly", .num 599),
         ("description", .str "Design software suite")]),
       ("figma_pro", [("monthly", .num 12), ("yearly", .num 144),
         ("description", .str "Design and prototyping tool")]),
       ("sketch", [("yearly", .num 99), ("description", .str "Mac-based design tool")])],
    certification_costs :=
      [("adobe_ace", [("one_time", .num 150),
         ("description", .str "Adobe Certified Expert")]),
       ("nngroup_ux", [("one_time", .num 6400),
         ("description", .str "Nielsen Norman Group UX Certificate")]),
       ("hfi_cua", [("one_time", .num 3995),
         ("description", .str "HFI Certified Usability Analyst")])] }

/-- `cost_data.get(target_career, {}).get(learning_resources, {})`
(lines 1165-1166): `none` exactly when Python gets the falsy empty dict. -/
def costDataLookup (target_career learning_resources : String) : Option LearningData :=
  if target_career = "Software Developer" then
    if learning_resources = "online courses" then some swDevOnlineCosts
    else if learning_resources = "bootcamp" then some swDevBootcampCosts
    else if learning_resources = "university" then some swDevUniversityCosts
    else none
  else if target_career = "Data Scientist" then
    if learning_resources = "online courses" then some dataSciOnlineCosts
    else if learning_resources = "bootcamp" then some dataSciBootcampCosts
    else none
  else if target_career = "UX Designer" then
    if learning_resources = "online courses" then some uxDesignOnlineCosts
    else none
  else none

/-- `_get_salary_increase` (agent.py 1239-1246). -/
def getSalaryIncrease (career : String) : String :=
  if career = "Software Developer" then "$25,000 - $50,000"
  else if career = "Data Scientist" then "$30,000 - $60,000"
  else if career = "UX Designer" then "$20,000 - $40,000"
  else "$15,000 - $35,000"

/-- `_calculate_break_even` (agent.py 1248-1256). -/
def calcBreakEven (investment : ℚ) (career : String) : String :=
  let monthly_increase :=
    (if career = "Software Developer" then (37500 : ℚ)
     else if career = "Data Scientist" then 45000
     else if career = "UX Designer" then 30000
     else 25000) / 12
  fmtF1 (investment / monthly_increase)

/-- The result dict of the effective `calculate_learning_costs`,
flattened.  Numeric fields carry the computed `ℚ` values; the source's
`$`/comma string rendering of those same numbers is presentation and is
not re-modelled. -/
structure CostsResult where
  status : String
  message : Option String := none
  career : Option String := none
  learning_type : Option String := none
  standard_duration_months : Option ℚ := none
  your_pace_duration_months : Option ℚ := none
  time_commitment : Option String := none
  total_min : Option ℚ := none
  total_max : Option ℚ := none
  total_avg : Option ℚ := none
  monthly_average : Option ℚ := none
  weekly_average : Option ℚ := none
  daily_average : Option ℚ := none
  your_pace_monthly : Option ℚ := none
  subscription_costs : List (String × List (String × CostVal)) := []
  certification_costs : List (String × List (String × CostVal)) := []
  tool_costs : List (String × List (String × CostVal)) := []
  additional_costs : List (String × List (String × CostVal)) := []
  payment_plans : List (String × List (String × CostVal)) := []
  cost_optimization_tips : List String := []
  roi_investment : Option ℚ := none
  roi_time_to_complete : Option String := none
  roi_potential_salary_increase : Option String := none
  roi_break_even_time : Option String := none
deriving DecidableEq

/-- `calculate_learning_costs` (agent.py 1048-1237, the effective
definition).  A miss on the career or resource-type key returns the
`{status: "error", message: ...}` dict of lines 1168-1172 — there is no
fallback record in this tool. -/
def calculate_learning_costs (target_career learning_resources time_commitment : String) :
    CostsResult :=
  match costDataLookup target_career learning_resources with
  | none =>
    { status := "error",
      message := some ("Cost data not available for " ++ target_career ++ " with " ++
        learning_resources) }
  | some learning_data =>
    let total_cost := learning_data.total_cost.getD { min := 100, max := 500, avg := 250 }
    let duration_months := learning_data.duration_months.getD 6
    let monthly_avg := total_cost.avg / duration_months
    let weekly_avg := monthly_avg / (43 / 10)
    let tm : ℚ :=
      if time_commitment = "1-2 hours daily" then 3 / 2
      else if time_commitment = "2-3 hours daily" then 1
      else if time_commitment = "3-4 hours daily" then 4 / 5
      else if time_commitment = "4+ hours daily" then 3 / 5
      else 1
    let adjusted_duration := duration_months * tm
    let adjusted_monthly := total_cost.avg / adjusted_duration
    { status := "success", career := some target_career,
      learning_type := some learning_resources,
      standard_duration_months := some duration_months,
      your_pace_duration_months := some (roundPy1 adjusted_duration),
      time_commitment := some time_commitment,
      total_min := some total_cost.min, total_max := some total_cost.max,
      total_avg := some total_cost.avg,
      monthly_average := some monthly_avg, weekly_average := some weekly_avg,
      daily_average := some (monthly_avg / 30), your_pace_monthly := some adjusted_monthly,
      subscription_costs := learning_data.subscription_costs,
      certification_costs := learning_data.certification_costs,
      tool_costs := learning_data.tool_costs,
      additional_costs := learning_data.additional_costs,
      payment_plans := learning_data.payment_plans,
      cost_optimization_tips :=
        ["🎯 Start with free resources (freeCodeCamp, Khan Academy, YouTube)",
         "💡 Use library access to paid platforms (many libraries offer free Coursera/LinkedIn Learning)",
         "🏷️ Wait for sales (Udemy courses regularly go from $200 to $15)",
         "🤝 Join study groups to share paid resource costs",
         "🎓 Look for employer tuition reimbursement programs",
         "⏰ Take advantage of free trial periods for premium platforms",
         "📅 At your pace (" ++ time_commitment ++ "), you\x27ll spend ~$" ++
           fmtF0 adjusted_monthly ++ "/month"],
      roi_investment := some total_cost.avg,
      roi_time_to_complete := some (fmtF1 adjusted_duration ++ " months"),
      roi_potential_salary_increase := some (getSalaryIncrease target_career),
      roi_break_even_time := some (calcBreakEven total_cost.avg target_career ++ " months") }

/-! ### Helper lemmas about the embedded string primitives -/

theorem isPrefixOf_append_self (l t : List Char) : List.isPrefixOf l (l ++ t) = true := by
  rw [List.isPrefixOf_iff_prefix]
  exact List.prefix_append l t

theorem isPrefixOf_append_extend (l₁ l₂ t : List Char)
    (h : List.isPrefixOf l₁ l₂ = true) : List.isPrefixOf l₁ (l₂ ++ t) = true := by
  rw [List.isPrefixOf_iff_prefix] at h ⊢
  exact h.trans (List.prefix_append l₂ t)

/-- Any key of the form `u ++ t` starts with `u`. -/
theorem pyStartswith_append_self (u t : String) : pyStartswith (u ++ t) u = true := by
  simp [pyStartswith, prefixCL, String.data_append, isPrefixOf_append_self]

/-- If `v` starts with `u` then so does `v ++ t`. -/
theorem pyStartswith_append_of (v u t : String) (h : pyStartswith v u = true) :
    pyStartswith (v ++ t) u = true := by
  simp only [pyStartswith, prefixCL, String.data_append] at h ⊢
  exact isPrefixOf_append_extend u.data v.data t.data h

/-! ### Claims about the session store -/

/-- Claim C2, counterexample: for a never-seen user, the `get_context`
read does not report `interactionCount = 0` — it reports 1, because the
dispatcher increments the interaction counter before any branch runs
(agent.py 47-50), and the read itself therefore counts. -/
theorem claim2_counterexample :
    (manage_conversation_state rand0 "get_context" "brand_new_user" "" "general"
        emptyStore).fst.interaction_count = some 1
    ∧ some 1 ≠ (some 0 : Option Nat) := by
  constructor
  · rfl
  · decide

/-- Claim C2 as amended: for every user identity with no entry in any of
the three store maps, `get_profile` returns status success with the
default empty profile and context `new_user`, `get_progress` returns the
default empty progress, and `get_context` returns status success,
`current_context = "new_user"` and `last_context = "general"` — but its
reported `interaction_count` is 1, not 0, because the read itself is
counted.  No read fails (the dispatcher is total). -/
theorem claim2_fresh_get_defaults (rand : List String → String)
    (uid d₁ ct₁ d₂ ct₂ d₃ ct₃ : String) (s : Store)
    (hc : s.contexts uid = none) (hh : s.history uid = none)
    (hp : s.mem (uid ++ "_profile") = none) (hg : s.mem (uid ++ "_progress") = none) :
    ((manage_conversation_state rand "get_profile" uid d₁ ct₁ s).fst.status = "success"
      ∧ (manage_conversation_state rand "get_profile" uid d₁ ct₁ s).fst.profile
          = some "\x7b\x7d"
      ∧ (manage_conversation_state rand "get_profile" uid d₁ ct₁ s).fst.context
          = some "new_user")
    ∧ ((manage_conversation_state rand "get_progress" uid d₂ ct₂ s).fst.status = "success"
      ∧ (manage_conversation_state rand "get_progress" uid d₂ ct₂ s).fst.progress
          = some "\x7b\x7d")
    ∧ ((manage_conversation_state rand "get_context" uid d₃ ct₃ s).fst.status = "success"
      ∧ (manage_conversation_state rand "get_context" uid d₃ ct₃ s).fst.current_context
          = some "new_user"
      ∧ (manage_conversation_state rand "get_context" uid d₃ ct₃ s).fst.interaction_count
          = some 1
      ∧ (manage_conversation_state rand "get_context" uid d₃ ct₃ s).fst.last_context
          = some "general") := by
  simp [manage_conversation_state, hc, hh, hp, hg]

/-- Witness for `claim2_fresh_get_defaults` at the empty store. -/
theorem claim2_witness :
    ((manage_conversation_state rand0 "get_profile" "u" "" "general" emptyStore).fst.status
        = "success"
      ∧ (manage_conversation_state rand0 "get_profile" "u" "" "general"
          emptyStore).fst.profile = some "\x7b\x7d"
      ∧ (manage_conversation_state rand0 "get_profile" "u" "" "general"
          emptyStore).fst.context = some "new_user")
    ∧ ((manage_conversation_state rand0 "get_progress" "u" "" "general"
          emptyStore).fst.status = "success"
      ∧ (manage_conversation_state rand0 "get_progress" "u" "" "general"
          emptyStore).fst.progress = some "\x7b\x7d")
    ∧ ((manage_conversation_state rand0 "get_context" "u" "" "general"
          emptyStore).fst.status = "success"
      ∧ (manage_conversation_state rand0 "get_context" "u" "" "general"
          emptyStore).fst.current_context = some "new_user"
      ∧ (manage_conversation_state rand0 "get_context" "u" "" "general"
          emptyStore).fst.interaction_count = some 1
      ∧ (manage_conversation_state rand0 "get_context" "u" "" "general"
          emptyStore).fst.last_context = some "general") :=
  claim2_fresh_get_defaults rand0 "u" "" "general" "" "general" "" "general" emptyStore
    rfl rfl rfl rfl

/-- Claim C3: for every prior state, `reset(u)` followed by any of the
three session reads for `u` returns exactly what the same read returns on
the empty store — the reset removes `u`'s memory keys, context and
history entirely, and the round-trip re-initializes the session. -/
theorem claim3_reset_then_get_fresh (rand : List String → String)
    (uid d ct d₂ ct₂ : String) (s : Store) :
    ((manage_conversation_state rand "get_profile" uid d₂ ct₂
        (manage_conversation_state rand "reset" uid d ct s).snd).fst
      = (manage_conversation_state rand "get_profile" uid d₂ ct₂ emptyStore).fst)
    ∧ ((manage_conversation_state rand "get_progress" uid d₂ ct₂
        (manage_conversation_state rand "reset" uid d ct s).snd).fst
      = (manage_conversation_state rand "get_progress" uid d₂ ct₂ emptyStore).fst)
    ∧ ((manage_conversation_state rand "get_context" uid d₂ ct₂
        (manage_conversation_state rand "reset" uid d ct s).snd).fst
      = (manage_conversation_state rand "get_context" uid d₂ ct₂ emptyStore).fst) := by
  simp [manage_conversation_state, mapDel, mapSet, emptyStore,
    pyStartswith_append_self]

/-- Claim C9: every action string outside the eight recognized ones makes
the dispatcher return `status = "error"` with a message naming the
action; being a total function, it never raises. -/
theorem claim9_unknown_action_error (rand : List String → String)
    (a uid d ct : String) (s : Store)
    (h : a ∉ ["save_profile", "get_profile", "set_context", "get_context",
      "save_progress", "get_progress", "reset", "list_all"]) :
    (manage_conversation_state rand a uid d ct s).fst.status = "error"
    ∧ (manage_conversation_state rand a uid d ct s).fst.message
        = some ("Unknown action: " ++ a) := by
  simp only [List.mem_cons, List.not_mem_nil, or_false, not_or] at h
  obtain ⟨h₁, h₂, h₃, h₄, h₅, h₆, h₇, h₈⟩ := h
  simp [manage_conversation_state, h₁, h₂, h₃, h₄, h₅, h₆, h₇, h₈]

/-- Witness for `claim9_unknown_action_error` at the unknown action
`"frobnicate"`. -/
theorem claim9_witness :
    (manage_conversation_state rand0 "frobnicate" "default_user" "" "general"
        emptyStore).fst.status = "error"
    ∧ (manage_conversation_state rand0 "frobnicate" "default_user" "" "general"
        emptyStore).fst.message = some ("Unknown action: " ++ "frobnicate") :=
  claim9_unknown_action_error rand0 "frobnicate" "default_user" "" "general" emptyStore
    (by decide)

/-- Claim C10 (implicit frame effect): `reset(u)` deletes every memory
key starting with the string `u` (agent.py 113-115), so whenever `v`
starts with `u`, the reset also deletes `v`'s stored profile and progress
keys — reset is not frame-preserving for other user identities. -/
theorem claim10_reset_deletes_prefixed (rand : List String → String)
    (u v d ct : String) (s : Store) (h : pyStartswith v u = true) :
    ((manage_conversation_state rand "reset" u d ct s).snd.mem (v ++ "_profile") = none)
    ∧ ((manage_conversation_state rand "reset" u d ct s).snd.mem (v ++ "_progress") = none) := by
  have h₁ := pyStartswith_append_of v u "_profile" h
  have h₂ := pyStartswith_append_of v u "_progress" h
  simp [manage_conversation_state, h₁, h₂]

/-- A store in which user `ana2` has a saved profile. -/
def anaStore : Store :=
  { emptyStore with mem := mapSet emptyStore.mem "ana2_profile" "ana2 data" }

/-- Witness for `claim10_reset_deletes_prefixed`: `"ana"` is a strict
prefix of the distinct identity `"ana2"`, whose saved profile is present
before `reset("ana")` and gone after it. -/
theorem claim10_witness :
    (anaStore.mem ("ana2" ++ "_profile") = some "ana2 data")
    ∧ ((manage_conversation_state rand0 "reset" "ana" "" "general" anaStore).snd.mem
        ("ana2" ++ "_profile") = none)
    ∧ ((manage_conversation_state rand0 "reset" "ana" "" "general" anaStore).snd.mem
        ("ana2" ++ "_progress") = none) :=
  ⟨rfl,
   (claim10_reset_deletes_prefixed rand0 "ana" "ana2" "" "general" anaStore (by decide)).1,
   (claim10_reset_deletes_prefixed rand0 "ana" "ana2" "" "general" anaStore (by decide)).2⟩

/-! ### Claims about the skill-gap calculator -/

/-- Claim C4: the gap percentage is `missingCount / totalRequired × 100`
rounded to one decimal (0 when the required list is empty) and the
readiness tier is `High` below a gap of 30, `Medium` below 60, else
`Beginner` (thresholds applied to the unrounded gap, as on line 534);
in particular the two documented examples evaluate as stated. -/
theorem claim4_skill_gap_formula :
    (∀ (cs : String) (rs : List String),
      (calculate_skill_gap cs rs).gap_percentage
        = roundPy1 (if rs.length = 0 then 0
            else (((calculate_skill_gap cs rs).missing_skills.length : ℚ) / (rs.length : ℚ)) * 100)
      ∧ (calculate_skill_gap cs rs).readiness_level
        = readinessOf (if rs.length = 0 then 0
            else (((calculate_skill_gap cs rs).missing_skills.length : ℚ) / (rs.length : ℚ)) * 100))
    ∧ (calculate_skill_gap "Python, SQL" ["Python", "SQL", "Docker"]).gap_percentage = 333 / 10
    ∧ (calculate_skill_gap "Python, SQL" ["Python", "SQL", "Docker"]).readiness_level = "Medium"
    ∧ (calculate_skill_gap "" []).gap_percentage = 0
    ∧ (calculate_skill_gap "" []).readiness_level = "High" := by
  have hq : gapPercentQ 1 3 = 100 / 3 := by unfold gapPercentQ; norm_num
  refine ⟨fun cs rs => ⟨rfl, rfl⟩, ?_, ?_, ?_, ?_⟩
  · have e : (calculate_skill_gap "Python, SQL" ["Python", "SQL", "Docker"]).gap_percentage
        = roundPy1 (gapPercentQ 1 3) := rfl
    rw [e, hq, roundPy1]
    have h10 : ((100 : ℚ) / 3) * 10 = 1000 / 3 := by norm_num
    rw [h10, round_eq]
    have hf : (⌊(1000 : ℚ) / 3 + 1 / 2⌋ : ℤ) = 333 := by
      rw [Int.floor_eq_iff] <;> norm_num

    rw [hf]
    norm_num
  · have e : (calculate_skill_gap "Python, SQL" ["Python", "SQL", "Docker"]).readiness_level
        = readinessOf (gapPercentQ 1 3) := rfl
    rw [e, hq]
    unfold readinessOf
    rw [if_neg (by norm_num), if_pos (by norm_num)]
  · have e : (calculate_skill_gap "" []).gap_percentage = roundPy1 (gapPercentQ 0 0) := rfl
    rw [e]
    unfold gapPercentQ roundPy1
    norm_num
  · have e : (calculate_skill_gap "" []).readiness_level = readinessOf (gapPercentQ 0 0) := rfl
    rw [e]
    unfold gapPercentQ readinessOf
    norm_num

/-- Claim C5, counterexample: under the spec's symmetric substring rule
the required skill `"javascript"` matches the current token `"java"`
(the token is a substring of the requirement), yet
`calculate_skill_gap "java" ["javascript"]` reports it missing — the
code's test is the one-directional `skill.lower() not in " ".join(tokens)`
of line 526, not a symmetric match. -/
theorem claim5_counterexample :
    ("javascript" ∈ (calculate_skill_gap "java" ["javascript"]).missing_skills)
    ∧ symmetricMatchSpec "java" "javascript" = true := by
  constructor
  · decide
  · decide

/-- Claim C5 as amended: after lower-casing, a required skill counts as
missing exactly when its lowercase form is not a substring of the single
space-joined string of lowercased current-skill tokens (a one-directional
test that can also match across token boundaries). -/
theorem claim5_missing_iff_not_substring (cs : String) (rs : List String) (req : String)
    (h : req ∈ rs) :
    (req ∈ (calculate_skill_gap cs rs).missing_skills
      ↔ pyIn (lowerStr req) (pyJoinSpace (skillTokens cs)) = false) := by
  simp [calculate_skill_gap, List.mem_filter, h]

/-- Witness for `claim5_missing_iff_not_substring` at
`cs = "java"`, `rs = ["javascript"]`. -/
theorem claim5_witness :
    ("javascript" ∈ (calculate_skill_gap "java" ["javascript"]).missing_skills
      ↔ pyIn (lowerStr "javascript") (pyJoinSpace (skillTokens "java")) = false) :=
  claim5_missing_iff_not_substring "java" ["javascript"] "javascript" (by decide)

/-! ### Claims about the stage resolver and auto-chain advisor -/

/-- Claim C6, counterexample: when no shape rule matches, the resolver
does not leave the stage unchanged — it returns the fixed label
`"getting_started"` (agent.py 206), which differs from a prior stage such
as `"careers_explored"` (the resolver receives no prior stage at all). -/
theorem claim6_counterexample :
    determine_workflow_stage {} = "getting_started"
    ∧ "getting_started" ≠ "careers_explored" := by
  constructor
  · rfl
  · decide

/-- Claim C6 as amended: the four shape rules are applied in source order
with the first match winning (profile → profile_complete, career list →
careers_explored, curriculum → learning_planned, progress →
learning_active); when none matches the resolver returns the fixed label
`"getting_started"` rather than leaving the stage unchanged.  Because the
resolver is a function of the result shape only, a curriculum-bearing
result yields `learning_planned` regardless of any prior stage. -/
theorem claim6_stage_resolver (r : ToolResult) :
    (r.profile.isSome = true → determine_workflow_stage r = "profile_complete")
    ∧ (r.profile = none → r.career_paths.isSome = true →
        determine_workflow_stage r = "careers_explored")
    ∧ (r.profile = none → r.career_paths = none → r.curriculum.isSome = true →
        determine_workflow_stage r = "learning_planned")
    ∧ (r.profile = none → r.career_paths = none → r.curriculum = none →
        r.progress.isSome = true → determine_workflow_stage r = "learning_active")
    ∧ (r.profile = none → r.career_paths = none → r.curriculum = none →
        r.progress = none → determine_workflow_stage r = "getting_started") := by
  refine ⟨?_, ?_, ?_, ?_, ?_⟩ <;> intros <;> simp [determine_workflow_stage, *]

/-- Witness for `claim6_stage_resolver`: a result carrying only a
curriculum field (and, to exercise rule order, also a progress field)
resolves to `learning_planned`. -/
theorem claim6_witness :
    determine_workflow_stage { curriculum := some (), progress := some () }
      = "learning_planned" :=
  (claim6_stage_resolver { curriculum := some (), progress := some () }).2.2.1 rfl rfl rfl

/-- Claim C7: the advisor returns exactly the suggestions and actions of
the rules that fire, concatenated in rule-evaluation order (career list
with context ≠ learning_planned → generate_curriculum/high; curriculum
with no cost field → calculate_costs/medium; profile with no
career-analysis field → recommend_careers/high; total cost strictly above
1000 → find_scholarships/medium), possibly the empty list; in particular
`{"total_cost": 1500}` yields exactly the scholarship suggestion at
priority medium and `{"total_cost": 50}` yields none. -/
theorem claim7_auto_chain :
    (∀ (r : ToolResult) (ctx : String),
      (auto_chain_tools r ctx).auto_actions
        = (if r.career_paths.isSome ∧ ctx ≠ "learning_planned"
            then [{ action := "generate_curriculum", priority := "high" }] else [])
          ++ (if r.curriculum.isSome ∧ r.costs = none
            then [{ action := "calculate_costs", priority := "medium" }] else [])
          ++ (if r.profile.isSome ∧ r.career_analysis = none
            then [{ action := "recommend_careers", priority := "high" }] else [])
          ++ (if r.total_cost.isSome ∧ r.total_cost.getD 0 > 1000
            then [{ action := "find_scholarships", priority := "medium" }] else [])
      ∧ (auto_chain_tools r ctx).suggestions
        = (if r.career_paths.isSome ∧ ctx ≠ "learning_planned"
            then ["🎓 Ready for the next step? Let me create your personalized learning curriculum!"]
            else [])
          ++ (if r.curriculum.isSome ∧ r.costs = none
            then ["💰 Want to see the investment required? I can calculate detailed costs!"]
            else [])
          ++ (if r.profile.isSome ∧ r.career_analysis = none
            then ["🔍 Based on your profile, let me analyze the best career matches!"] else [])
          ++ (if r.total_cost.isSome ∧ r.total_cost.getD 0 > 1000
            then ["🎓 Those costs looking high? Let me find scholarships to reduce your investment!"]
            else [])
      ∧ (auto_chain_tools r ctx).workflow_stage = determine_workflow_stage r)
    ∧ (auto_chain_tools { total_cost := some 1500 } "learning_planned").auto_actions
        = [{ action := "find_scholarships", priority := "medium" }]
    ∧ (auto_chain_tools { total_cost := some 50 } "learning_planned").auto_actions = [] := by
  refine ⟨fun r ctx => ⟨rfl, rfl, rfl⟩, ?_, ?_⟩
  · norm_num [auto_chain_tools]
  · norm_num [auto_chain_tools]

/-! ### Claim about the end-to-end scenario -/

/-- Claim C1, code evaluated at the failing input: with interests
`"technology"` and the default experience level `"beginner"`, no career's
match score exceeds the strict `> 30` threshold (the best, Software
Developer, scores exactly 30), so `matched_careers` — and hence
`top_careers` — is empty, and the Python call
`recommend_career_paths(interests="technology")` raises
`ZeroDivisionError` at the `// len(top_careers)` of line 507 instead of
returning the claimed suggestions.  The two store writes that precede the
crash do run: the fresh user's context becomes `"careers_explored"` with
an interaction count of 2 (one `get_context` plus one `set_context`),
whereas after `collect_user_profile` alone both maps are untouched
(`collect_user_profile` is pure and never calls the store, so the claimed
intermediate `interactionCount = 1` / `PROFILE_COMPLETE` state never
exists). -/
theorem claim1_scenario_code_evaluated :
    matchedCareers "technology" "beginner" = []
    ∧ ((manage_conversation_state rand0 "set_context" "u" "" "careers_explored"
        (manage_conversation_state rand0 "get_context" "u" "" "general" emptyStore).snd).snd.contexts
          "u" = some "careers_explored")
    ∧ ((manage_conversation_state rand0 "set_context" "u" "" "careers_explored"
        (manage_conversation_state rand0 "get_context" "u" "" "general" emptyStore).snd).snd.history
          "u" = some (⟨2, "careers_explored", []⟩ : Hist)) := by
  refine ⟨by decide, rfl, rfl⟩

/-! ### Claims about the knowledge-base-backed tools -/

/-- Claim C8, counterexample: for a career absent from the knowledge
base, the (effective) learning-cost calculator does not fall back — it
returns a `status = "error"` result naming the miss (agent.py
1168-1172). -/
theorem claim8_counterexample :
    (calculate_learning_costs "Astronaut" "online courses" "2-3 hours daily").status = "error"
    ∧ (calculate_learning_costs "Astronaut" "online courses" "2-3 hours daily").message
        = some ("Cost data not available for " ++ "Astronaut" ++ " with " ++ "online courses")
    ∧ "error" ≠ "success" := by
  exact ⟨rfl, rfl, by decide⟩

/-- Claim C8 as amended: curriculum generation and scholarship lookup do
fall back to fixed default records on a knowledge-base miss and always
return `status = "success"`, but the learning-cost calculator has no
fallback: a miss on its career (or resource-type) key yields a returned
`status = "error"` result. -/
theorem claim8_kb_fallback :
    (∀ (rand : List String → String) (c cs tc uid : String) (s : Store),
      (generate_learning_curriculum rand c cs tc uid s).fst.status = "success")
    ∧ (∀ (rand : List String → String) (c uid : String) (s : Store),
        curriculumsKB c = none →
        (generate_learning_curriculum rand c "" "2-3 hours daily" uid s).fst.curriculum
          = softwareDeveloperCurriculum)
    ∧ (∀ c ub : String, (find_scholarships c ub).status = "success")
    ∧ (∀ c ub : String, scholarshipsKB c = none →
        (find_scholarships c ub).available_scholarships = [generalCareerGrant])
    ∧ (∀ c lr tc : String, costDataLookup c lr = none →
        (calculate_learning_costs c lr tc).status = "error") := by
  refine ⟨fun rand c cs tc uid s => rfl, ?_, fun c ub => rfl, ?_, ?_⟩
  · intro rand c uid s h
    simp [generate_learning_curriculum, h]
  · intro c ub h
    simp [find_scholarships, h]
  · intro c lr tc h
    simp [calculate_learning_costs, h]

/-- Witness for `claim8_kb_fallback` at the unknown career
`"Astronaut"`. -/
theorem claim8_witness :
    ((generate_learning_curriculum rand0 "Astronaut" "" "2-3 hours daily" "u"
        emptyStore).fst.status = "success")
    ∧ ((generate_learning_curriculum rand0 "Astronaut" "" "2-3 hours daily" "u"
        emptyStore).fst.curriculum = softwareDeveloperCurriculum)
    ∧ ((find_scholarships "Astronaut" "general").status = "success")
    ∧ ((find_scholarships "Astronaut" "general").available_scholarships
        = [generalCareerGrant])
    ∧ ((calculate_learning_costs "Astronaut" "online courses" "2-3 hours daily").status
        = "error") :=
  ⟨claim8_kb_fallback.1 rand0 "Astronaut" "" "2-3 hours daily" "u" emptyStore,
   claim8_kb_fallback.2.1 rand0 "Astronaut" "u" emptyStore rfl,
   claim8_kb_fallback.2.2.1 "Astronaut" "general",
   claim8_kb_fallback.2.2.2.1 "Astronaut" "general" rfl,
   claim8_kb_fallback.2.2.2.2 "Astronaut" "online courses" "2-3 hours daily" rfl⟩

end SkillSphere
